import Mathlib

/-!
Shallow embedding of the worker/main-thread split rendering core of the
SvelteThree repository.

Embedded source files:
* `src/Services/Worker/WorkerRendererService.ts` — the Presentation
  Coordinator (main thread): `init`, `setupMessageHandlers`, `resize`,
  `initMainThreadThreeJS`, `updateMainThreadRender`, `cleanup`.
* `src/workers/renderWorker.ts` — the Background Compute Unit:
  `ThreeWorkerRenderer.init/resize/cleanup`, `updateRenderData`,
  `startAnimation` (never called: the call site is commented out), and the
  `self.addEventListener` message dispatcher.

Numbers that the code treats as JS doubles are modelled as `ℚ` (every value
the code actually produces is rational and exact); colors are `ℕ`; JS values
that may be `undefined`/`null` are `Option`s.  Side effects (postMessage,
render calls, console output, resource disposal) are collected in explicit
effect lists returned next to the new state.
-/

namespace SvelteThree

/-- A fully populated 3-vector, as in the worker's `CubeState` fields. -/
structure Vec3 where
  x : ℚ
  y : ℚ
  z : ℚ
deriving Repr, DecidableEq

/-- A JS object with numeric fields `x`,`y`,`z` each possibly `undefined`:
payload vectors on the wire, and the components of a THREE `Euler`/`Vector3`
after arbitrary assignments (assigning `undefined` stores `undefined`). -/
structure OptVec3 where
  x : Option ℚ := none
  y : Option ℚ := none
  z : Option ℚ := none
deriving Repr, DecidableEq

/-- The `InitData` interface of `renderWorker.ts`: width and height of the
viewport. -/
structure InitData where
  width : ℕ
  height : ℕ
deriving Repr, DecidableEq

/-- Geometry part of `MeshCreateCommand`.  The TS annotation narrows `type`
to the union `'box' | 'sphere' | 'plane'`, but the value crossing the
message channel at runtime is a plain string, so it is modelled as `String`
(which also lets us speak about out-of-set values such as "torus"). -/
structure GeometryDesc where
  type : String
  width : Option ℚ := none
  height : Option ℚ := none
  depth : Option ℚ := none
  radius : Option ℚ := none
  widthSegments : Option ℚ := none
  heightSegments : Option ℚ := none
deriving Repr, DecidableEq

/-- Material part of `MeshCreateCommand`; `type` is annotated
`'basic' | 'standard' | 'lambert'` in TS, a plain string at runtime. -/
structure MaterialDesc where
  type : String
  color : Option ℕ := none
deriving Repr, DecidableEq

/-- Optional initial transform of `MeshCreateCommand`. -/
structure InitialTransform where
  position : Option Vec3 := none
  rotation : Option Vec3 := none
  scale : Option Vec3 := none
deriving Repr, DecidableEq

/-- The `MeshCreateCommand` interface of `renderWorker.ts`. -/
structure MeshCreateCommand where
  id : String
  geometry : GeometryDesc
  material : MaterialDesc
  initialTransform : Option InitialTransform := none
deriving Repr, DecidableEq

/-- The payload of a `renderData` message (a Transform Snapshot): the worker
sends `meshId`, `rotation` and `position`; a snapshot arriving over the
untyped channel may omit any of them, and may carry a `scale` field (which
the main thread never reads). -/
structure RenderData where
  meshId : Option String := none
  rotation : Option OptVec3 := none
  position : Option OptVec3 := none
  scale : Option OptVec3 := none
deriving Repr, DecidableEq

/-- Messages posted by the worker to the main thread. -/
inductive WorkerOutMsg where
  | createMesh (cmd : MeshCreateCommand)
  | initComplete
  | renderData (data : RenderData)
  | error (message : String)
deriving Repr, DecidableEq

/-- Messages posted by the main thread to the worker. -/
inductive MainToWorkerMsg where
  | init (data : InitData)
  | resize (width height : ℕ)
  | cleanup
deriving Repr, DecidableEq

/-- `v || d` for a JS number in a context expecting a positive dimension:
`0` is falsy, so `canvas.clientWidth || 800` yields the default on `0`. -/
def orDefault (v d : ℕ) : ℕ := if v = 0 then d else v

/-- The canvas handed to `WorkerRendererService.init`; only its
`clientWidth`/`clientHeight` are read by the embedded code. -/
structure Canvas where
  clientWidth : ℕ
  clientHeight : ℕ
deriving Repr, DecidableEq

/-- The THREE.PerspectiveCamera state the coordinator constructs and could
later mutate: constructor arguments plus `position.z`. -/
structure CameraState where
  fov : ℚ
  aspect : ℚ
  near : ℚ
  far : ℚ
  positionZ : ℚ
deriving Repr, DecidableEq

/-- The THREE.WebGLRenderer state the coordinator owns: the size given to
`setSize` and the clear color. -/
structure RendererState where
  width : ℕ
  height : ℕ
  clearColor : ℕ
deriving Repr, DecidableEq

/-- The single mesh (`this.cube`) the coordinator builds: its geometry and
material construction arguments and its mutable transform.  Transform
components are `Option ℚ` because JS assignment can store `undefined` in a
THREE `Euler` component. -/
structure CubeState where
  boxWidth : ℚ
  boxHeight : ℚ
  boxDepth : ℚ
  materialColor : ℕ
  rotation : OptVec3
  position : OptVec3
  scale : OptVec3
deriving Repr, DecidableEq

/-- The mutable fields of `WorkerRendererService`.  `worker` and `scene` are
tracked as presence booleans (`≠ null`); the others carry the state the code
reads back. -/
structure CoordState where
  worker : Bool
  canvas : Option Canvas
  renderer : Option RendererState
  scene : Bool
  camera : Option CameraState
  cube : Option CubeState
  animationId : Option ℕ
  isSupported : Bool
deriving Repr, DecidableEq

/-- State of a fresh `WorkerRendererService` whose constructor ran
`checkSupport` with the given host answer for `typeof Worker`. -/
def CoordState.fresh (supported : Bool) : CoordState :=
  { worker := false, canvas := none, renderer := none, scene := false
    camera := none, cube := none, animationId := none
    isSupported := supported }

/-- Observable side effects of the coordinator. -/
inductive Effect where
  | render
  | consoleLog (message : String)
  | consoleWarn (message : String)
  | consoleError (message : String)
  | postToWorker (msg : MainToWorkerMsg)
  | terminateWorker
  | cancelAnimation (id : ℕ)
  | disposeRenderer
deriving Repr, DecidableEq

/-- `WorkerRendererService.initMainThreadThreeJS`: builds scene, camera
(75, width/height, 0.1, 1000, `position.z = 5`), renderer (sized to the
canvas, clear color `0x87ceeb`) and the hardcoded 1×1×1 green
(`0x00ff00`) cube added to the scene. -/
def initMainThreadThreeJS (s : CoordState) : CoordState × List Effect :=
  match s.canvas with
  | none => (s, [])
  | some c =>
    let width := orDefault c.clientWidth 800
    let height := orDefault c.clientHeight 600
    let camera : CameraState :=
      { fov := 75, aspect := (width : ℚ) / (height : ℚ)
        near := 1/10, far := 1000, positionZ := 5 }
    let renderer : RendererState :=
      { width := width, height := height, clearColor := 0x87ceeb }
    let cube : CubeState :=
      { boxWidth := 1, boxHeight := 1, boxDepth := 1
        materialColor := 0x00ff00
        rotation := ⟨some 0, some 0, some 0⟩
        position := ⟨some 0, some 0, some 0⟩
        scale := ⟨some 1, some 1, some 1⟩ }
    ({ s with scene := true, camera := some camera
              renderer := some renderer, cube := some cube },
     [Effect.consoleLog "Main: Initializing Three.js scene in main thread",
      Effect.consoleLog "Main: Three.js scene initialized successfully"])

/-- `WorkerRendererService.updateMainThreadRender`: guards on `cube`,
`renderer`, `scene`, `camera` all present; when `data.rotation` is truthy,
assigns `cube.rotation.x = data.rotation.x` and
`cube.rotation.y = data.rotation.y` (whatever those fields hold, including
`undefined`); then calls `renderer.render(scene, camera)`. -/
def updateMainThreadRender (s : CoordState) (data : RenderData) :
    CoordState × List Effect :=
  match s.cube with
  | none => (s, [])
  | some cube =>
    if s.renderer.isNone ∨ s.scene = false ∨ s.camera.isNone then (s, [])
    else
      let cube' :=
        match data.rotation with
        | some r => { cube with rotation := { cube.rotation with x := r.x, y := r.y } }
        | none => cube
      ({ s with cube := some cube' }, [Effect.render])

/-- The `onmessage` handler installed by
`WorkerRendererService.setupMessageHandlers`: a `switch` on the message
`type` with cases `initComplete`, `renderData` and `error` only — a
`createMesh` message matches no case and no default, so it falls through
with no effect at all. -/
def onWorkerMessage (s : CoordState) (m : WorkerOutMsg) :
    CoordState × List Effect :=
  match m with
  | WorkerOutMsg.initComplete =>
      (s, [Effect.consoleLog "Worker renderer initialized successfully"])
  | WorkerOutMsg.renderData data => updateMainThreadRender s data
  | WorkerOutMsg.error e => (s, [Effect.consoleError e])
  | WorkerOutMsg.createMesh _ => (s, [])

/-- `WorkerRendererService.resize`: when a worker exists, post a `resize`
message with `width || 800` and `height || 600`; nothing else — the local
camera and renderer are not touched. -/
def resize (s : CoordState) (width height : ℕ) : CoordState × List Effect :=
  if s.worker then
    (s, [Effect.postToWorker
          (MainToWorkerMsg.resize (orDefault width 800) (orDefault height 600))])
  else (s, [])

/-- The host facts `WorkerRendererService.init` depends on: whether the
`new Worker(...)` construction inside the `try` block throws. -/
structure Host where
  workerCtorThrows : Bool
deriving Repr, DecidableEq

/-- The only operation inside the `try` of `init` that can throw: the
`Worker` constructor. -/
def newWorker (host : Host) : Except String Unit :=
  if host.workerCtorThrows then Except.error "Worker construction failed"
  else Except.ok ()

/-- `WorkerRendererService.init`: returns `false` immediately when Workers
are unsupported; otherwise stores the canvas, builds the main-thread
Three.js scene, constructs the worker (the throwing point — an exception is
caught, logged via `console.error`, and reported as `false`), installs the
message handlers, posts the `init` message with the canvas dimensions
(`|| 800` / `|| 600`), and returns `true`. -/
def init (s : CoordState) (c : Canvas) (host : Host) :
    Bool × CoordState × List Effect :=
  if s.isSupported = false then (false, s, [])
  else
    let s1 := { s with canvas := some c }
    let logDims := Effect.consoleLog "Main: Canvas dimensions"
    let (s2, e2) := initMainThreadThreeJS s1
    match newWorker host with
    | Except.error _ =>
        (false, s2, logDims :: e2 ++
          [Effect.consoleError "Failed to initialize worker renderer"])
    | Except.ok _ =>
        let s3 := { s2 with worker := true }
        let initData : InitData :=
          { width := orDefault c.clientWidth 800
            height := orDefault c.clientHeight 600 }
        (true, s3, logDims :: e2 ++
          [Effect.postToWorker (MainToWorkerMsg.init initData)])

/-- `WorkerRendererService.cleanup`: posts `cleanup` to the worker and
terminates it (when present), cancels the animation frame (guarded by the
truthiness of `animationId`, so an id of `0` is skipped and kept), disposes
the renderer (when present), then nulls canvas, scene, camera and cube. -/
def cleanup (s : CoordState) : CoordState × List Effect :=
  let p1 :=
    if s.worker then
      ({ s with worker := false },
       [Effect.postToWorker MainToWorkerMsg.cleanup, Effect.terminateWorker])
    else (s, ([] : List Effect))
  let s1 := p1.1
  let p2 :=
    match s1.animationId with
    | some id =>
        if id ≠ 0 then ({ s1 with animationId := none }, [Effect.cancelAnimation id])
        else (s1, ([] : List Effect))
    | none => (s1, ([] : List Effect))
  let s2 := p2.1
  let p3 :=
    if s2.renderer.isSome then ({ s2 with renderer := none }, [Effect.disposeRenderer])
    else (s2, ([] : List Effect))
  let s3 := p3.1
  ({ s3 with canvas := none, scene := false, camera := none, cube := none },
   p1.2 ++ p2.2 ++ p3.2)

/-- The mutable fields of `ThreeWorkerRenderer` in `renderWorker.ts`:
`cubeState` (rotation and position), `animationId` and `lastTime`. -/
structure WorkerState where
  cubeRotation : Vec3
  cubePosition : Vec3
  animationId : Option ℕ
  lastTime : ℚ
deriving Repr, DecidableEq

/-- Field initializers of `ThreeWorkerRenderer`. -/
def WorkerState.fresh : WorkerState :=
  { cubeRotation := ⟨0, 0, 0⟩, cubePosition := ⟨0, 0, 0⟩
    animationId := none, lastTime := 0 }

/-- The `cubeMeshCommand` literal built inside `ThreeWorkerRenderer.init`:
a 1×1×1 box with a basic red (`0xff0000`) material, identity initial
transform, id "cube-1". -/
def cubeMeshCommand : MeshCreateCommand :=
  { id := "cube-1"
    geometry := { type := "box", width := some 1, height := some 1, depth := some 1 }
    material := { type := "basic", color := some 0xff0000 }
    initialTransform := some
      { position := some ⟨0, 0, 0⟩
        rotation := some ⟨0, 0, 0⟩
        scale := some ⟨1, 1, 1⟩ } }

/-- `ThreeWorkerRenderer.updateRenderData`: posts a `renderData` message
with the current cube state under `meshId` "cube-1".  In the shipped code
its only call sites are commented out, so it is never executed. -/
def updateRenderData (s : WorkerState) : List WorkerOutMsg :=
  [WorkerOutMsg.renderData
    { meshId := some "cube-1"
      rotation := some ⟨some s.cubeRotation.x, some s.cubeRotation.y, some s.cubeRotation.z⟩
      position := some ⟨some s.cubePosition.x, some s.cubePosition.y, some s.cubePosition.z⟩ }]

/-- `ThreeWorkerRenderer.init`: logs, builds `cubeMeshCommand`, posts it as
a `createMesh` message, schedules a `setTimeout` whose body is entirely
commented out, posts `initComplete`, and does NOT start the animation loop
(the `this.startAnimation()` call is commented out).  State is unchanged. -/
def workerInit (s : WorkerState) (_ : InitData) : WorkerState × List WorkerOutMsg :=
  (s, [WorkerOutMsg.createMesh cubeMeshCommand, WorkerOutMsg.initComplete])

/-- `ThreeWorkerRenderer.resize`: an empty body — the worker manages no
camera or renderer, so resize is a pure no-op. -/
def workerResize (s : WorkerState) (_ _ : ℕ) : WorkerState × List WorkerOutMsg :=
  (s, [])

/-- `ThreeWorkerRenderer.cleanup`: clears the pending timeout when
`animationId` is truthy (an id of `0` is falsy and skipped) and nulls it. -/
def workerCleanup (s : WorkerState) : WorkerState × List WorkerOutMsg :=
  match s.animationId with
  | some id =>
      if id ≠ 0 then ({ s with animationId := none }, [])
      else (s, [])
  | none => (s, [])

/-- The `self.addEventListener` dispatcher of `renderWorker.ts`: a `switch`
on `type` with cases `init`, `resize` and `cleanup`; any other inbound kind
falls through silently. -/
def workerStep (s : WorkerState) (m : MainToWorkerMsg) :
    WorkerState × List WorkerOutMsg :=
  match m with
  | MainToWorkerMsg.init d => workerInit s d
  | MainToWorkerMsg.resize w h => workerResize s w h
  | MainToWorkerMsg.cleanup => workerCleanup s

/-- Running the worker over a whole inbound message sequence, collecting
every posted message in order (FIFO, matching per-direction channel
delivery). -/
def workerRun (s : WorkerState) : List MainToWorkerMsg → WorkerState × List WorkerOutMsg
  | [] => (s, [])
  | m :: ms =>
      let p := workerStep s m
      let q := workerRun p.1 ms
      (q.1, p.2 ++ q.2)

/-- Folding the coordinator's `onmessage` handler over a delivered message
sequence (FIFO order), collecting effects. -/
def coordRun (s : CoordState) : List WorkerOutMsg → CoordState × List Effect
  | [] => (s, [])
  | m :: ms =>
      let p := onWorkerMessage s m
      let q := coordRun p.1 ms
      (q.1, p.2 ++ q.2)

/-! ## Concrete scenario values -/

/-- The 800×600 canvas of the spec's initialization scenario. -/
def canvas800x600 : Canvas := { clientWidth := 800, clientHeight := 600 }

/-- A host on which the Worker constructor succeeds. -/
def hostOk : Host := { workerCtorThrows := false }

/-- Coordinator state right after a successful `init` on an 800×600
canvas. -/
def coordAfterInit : CoordState :=
  (init (CoordState.fresh true) canvas800x600 hostOk).2.1

/-- The hardcoded cube `initMainThreadThreeJS` builds: 1×1×1 box, green
basic material, identity transform. -/
def initialCube : CubeState :=
  { boxWidth := 1, boxHeight := 1, boxDepth := 1
    materialColor := 0x00ff00
    rotation := ⟨some 0, some 0, some 0⟩
    position := ⟨some 0, some 0, some 0⟩
    scale := ⟨some 1, some 1, some 1⟩ }

/-! ## Helper lemmas -/

/-- A single worker dispatch never posts a `renderData` message. -/
lemma workerStep_no_renderData (s : WorkerState) (m : MainToWorkerMsg)
    (rd : RenderData) : WorkerOutMsg.renderData rd ∉ (workerStep s m).2 := by
  cases m with
  | init d => simp [workerStep, workerInit]
  | resize w h => simp [workerStep, workerResize]
  | cleanup =>
      simp only [workerStep, workerCleanup]
      cases h : s.animationId with
      | none => simp
      | some id => by_cases h0 : id ≠ 0 <;> simp [h0]

/-- No run of the worker over any inbound sequence ever posts
`renderData`. -/
lemma workerRun_no_renderData (msgs : List MainToWorkerMsg) (s : WorkerState)
    (rd : RenderData) : WorkerOutMsg.renderData rd ∉ (workerRun s msgs).2 := by
  induction msgs generalizing s with
  | nil => simp [workerRun]
  | cons m ms ih =>
      simp only [workerRun, List.mem_append]
      push_neg
      exact ⟨workerStep_no_renderData s m rd, ih _⟩

/-- A worker dispatch never allocates an animation id. -/
lemma workerStep_animationId_none (s : WorkerState) (m : MainToWorkerMsg)
    (h : s.animationId = none) : (workerStep s m).1.animationId = none := by
  cases m with
  | init d => simpa [workerStep, workerInit] using h
  | resize w h' => simpa [workerStep, workerResize] using h
  | cleanup => simp [workerStep, workerCleanup, h]

/-- The animation loop is never started across any run. -/
lemma workerRun_animationId_none (msgs : List MainToWorkerMsg) (s : WorkerState)
    (h : s.animationId = none) : (workerRun s msgs).1.animationId = none := by
  induction msgs generalizing s with
  | nil => simpa [workerRun] using h
  | cons m ms ih => exact ih _ (workerStep_animationId_none s m h)

/-- The coordinator's state only changes on `renderData` messages. -/
lemma onWorkerMessage_state_of_not_renderData (s : CoordState) (m : WorkerOutMsg)
    (h : ∀ rd, m ≠ WorkerOutMsg.renderData rd) : (onWorkerMessage s m).1 = s := by
  cases m with
  | createMesh cmd => rfl
  | initComplete => rfl
  | renderData d => exact absurd rfl (h d)
  | error e => rfl

/-- Folding the coordinator over a `renderData`-free message sequence leaves
its state unchanged. -/
lemma coordRun_state_of_no_renderData (ms : List WorkerOutMsg) (s : CoordState)
    (h : ∀ rd, WorkerOutMsg.renderData rd ∉ ms) : (coordRun s ms).1 = s := by
  induction ms generalizing s with
  | nil => rfl
  | cons m rest ih =>
      have hm : ∀ rd, m ≠ WorkerOutMsg.renderData rd := by
        intro rd he
        exact h rd (by simp [he])
      have hrest : ∀ rd, WorkerOutMsg.renderData rd ∉ rest := by
        intro rd hmem
        exact h rd (by simp [hmem])
      simp only [coordRun]
      rw [onWorkerMessage_state_of_not_renderData s m hm]
      exact ih s hrest

/-- Shape of the coordinator's state after `cleanup`: everything the code
nulls is null; `animationId` survives only in the JS-falsy corner `0`. -/
lemma cleanup_fst (s : CoordState) :
    (cleanup s).1 =
      { worker := false, canvas := none, renderer := none, scene := false
        camera := none, cube := none
        animationId :=
          match s.animationId with
          | some id => if id ≠ 0 then none else some id
          | none => none
        isSupported := s.isSupported } := by
  simp only [cleanup]
  cases hw : s.worker <;>
    cases ha : s.animationId with
    | none =>
        cases hr : s.renderer <;> simp [hw, ha, hr]
    | some id =>
        by_cases h0 : id ≠ 0 <;> cases hr : s.renderer <;> simp [hw, ha, hr, h0]

/-! ## Claim theorems -/

/-- C6: during Background Compute Unit initialization the creation command
(with identifier "cube-1") is emitted at an index strictly before the
`initComplete` ("ready") acknowledgment, and no run of the unit over any
inbound sequence ever emits a transform snapshot — so in the FIFO output
stream the creation command precedes the ready acknowledgment and
(vacuously, there being none) every snapshot referencing its identifier. -/
theorem c6_creation_before_ready (s s0 : WorkerState) (d : InitData)
    (msgs : List MainToWorkerMsg) (rd : RenderData) :
    (∃ i j, i < j ∧
      (workerInit s d).2.get? i = some (WorkerOutMsg.createMesh cubeMeshCommand) ∧
      (workerInit s d).2.get? j = some WorkerOutMsg.initComplete) ∧
    cubeMeshCommand.id = "cube-1" ∧
    WorkerOutMsg.renderData rd ∉ (workerRun s0 msgs).2 :=
  ⟨⟨0, 1, Nat.zero_lt_one, rfl, rfl⟩, rfl, workerRun_no_renderData msgs s0 rd⟩

/-- C7: the coordinator's `init` never throws across its boundary (it is a
total function into `Bool × _`): it returns `false` when Workers are
unsupported, and when the Worker construction inside the `try` throws, the
exception is caught, a `console.error` diagnostic is emitted, and `false`
is returned; otherwise it returns `true`. -/
theorem c7_init_reports_failure (s : CoordState) (c : Canvas) (host : Host) :
    (s.isSupported = false → init s c host = (false, s, [])) ∧
    (s.isSupported = true → host.workerCtorThrows = true →
      (init s c host).1 = false ∧
      Effect.consoleError "Failed to initialize worker renderer" ∈
        (init s c host).2.2) ∧
    (s.isSupported = true → host.workerCtorThrows = false →
      (init s c host).1 = true) := by
  refine ⟨fun h => ?_, fun h ht => ?_, fun h ht => ?_⟩
  · simp [init, h]
  · cases hcv : c with
    | mk cw ch =>
        constructor <;>
          simp [init, h, ht, newWorker, initMainThreadThreeJS]
  · simp [init, h, ht, newWorker]

/-- C7 witness: the three branches at concrete inputs. -/
theorem c7_init_reports_failure_witness :
    init (CoordState.fresh false) canvas800x600 hostOk =
      (false, CoordState.fresh false, []) ∧
    (init (CoordState.fresh true) canvas800x600 { workerCtorThrows := true }).1
      = false ∧
    (init (CoordState.fresh true) canvas800x600 hostOk).1 = true :=
  ⟨(c7_init_reports_failure (CoordState.fresh false) canvas800x600 hostOk).1 rfl,
   ((c7_init_reports_failure (CoordState.fresh true) canvas800x600
      { workerCtorThrows := true }).2.1 rfl rfl).1,
   (c7_init_reports_failure (CoordState.fresh true) canvas800x600 hostOk).2.2
      rfl rfl⟩

/-- C8: teardown is idempotent on both sides.  A second `cleanup` on the
coordinator's already-torn-down state changes nothing and performs no
effect (no resource is freed twice); `worker`, `canvas`, `renderer`,
`scene`, `camera` and `cube` are all null after the first call.  The
compute unit's `cleanup` is likewise idempotent and effect-free. -/
theorem c8_cleanup_idempotent (s : CoordState) (w : WorkerState) :
    cleanup (cleanup s).1 = ((cleanup s).1, []) ∧
    (cleanup s).1.worker = false ∧ (cleanup s).1.canvas = none ∧
    (cleanup s).1.renderer = none ∧ (cleanup s).1.scene = false ∧
    (cleanup s).1.camera = none ∧ (cleanup s).1.cube = none ∧
    workerCleanup (workerCleanup w).1 = ((workerCleanup w).1, []) := by
  have h := cleanup_fst s
  refine ⟨?_, by rw [h], by rw [h], by rw [h], by rw [h], by rw [h], by rw [h], ?_⟩
  · rw [h]
    cases ha : s.animationId with
    | none => simp [cleanup]
    | some id => by_cases h0 : id ≠ 0 <;> simp [cleanup, h0]
  · cases ha : w.animationId with
    | none => simp [workerCleanup, ha]
    | some id =>
        by_cases h0 : id ≠ 0 <;> simp [workerCleanup, ha, h0]

/-- C9: a creation or snapshot message delivered to a coordinator whose
scene, cube, renderer or camera is already nulled (teardown has begun) is a
defensive no-op: the state is returned unchanged and no effect — in
particular no render call — is produced.  (`createMesh` has no handler case
at all; `renderData` is stopped by the null guard of
`updateMainThreadRender`.) -/
theorem c9_post_teardown_noop (s : CoordState) (m : WorkerOutMsg)
    (hnull : s.scene = false ∨ s.cube = none ∨ s.renderer = none ∨
      s.camera = none)
    (hm : (∃ cmd, m = WorkerOutMsg.createMesh cmd) ∨
      ∃ d, m = WorkerOutMsg.renderData d) :
    onWorkerMessage s m = (s, []) := by
  rcases hm with ⟨cmd, rfl⟩ | ⟨d, rfl⟩
  · rfl
  · cases hc : s.cube with
    | none => simp [onWorkerMessage, updateMainThreadRender, hc]
    | some cube =>
        have hguard : s.renderer.isNone ∨ s.scene = false ∨ s.camera.isNone := by
          rcases hnull with hx | hx | hx | hx
          · exact Or.inr (Or.inl hx)
          · rw [hx] at hc; cases hc
          · exact Or.inl (by simp [hx])
          · exact Or.inr (Or.inr (by simp [hx]))
        simp only [onWorkerMessage, updateMainThreadRender, hc]
        rw [if_pos hguard]

/-- C9 witness: a snapshot delivered after a full teardown of the
initialized coordinator is a no-op. -/
theorem c9_post_teardown_noop_witness :
    onWorkerMessage (cleanup coordAfterInit).1
      (WorkerOutMsg.renderData
        { meshId := some "cube-1", rotation := some ⟨some 1, some 2, none⟩ }) =
      ((cleanup coordAfterInit).1, []) :=
  c9_post_teardown_noop _ _ (Or.inl (by decide)) (Or.inr ⟨_, rfl⟩)

/-- C10: the compute unit never posts `renderData` over any inbound
sequence; `init` posts exactly one `createMesh` (the cube command) followed
by one `initComplete`; `resize` and `cleanup` post nothing; the animation
loop is never started (`animationId` stays `none` from the initial state);
consequently the coordinator's cube is unchanged by everything the worker
ever sends. -/
theorem c10_no_renderData_ever (s0 : WorkerState) (msgs : List MainToWorkerMsg)
    (d : InitData) (wd ht : ℕ) (rd : RenderData) (cs : CoordState) :
    WorkerOutMsg.renderData rd ∉ (workerRun s0 msgs).2 ∧
    (workerInit s0 d).2 =
      [WorkerOutMsg.createMesh cubeMeshCommand, WorkerOutMsg.initComplete] ∧
    workerResize s0 wd ht = (s0, []) ∧
    (workerCleanup s0).2 = [] ∧
    (workerRun WorkerState.fresh msgs).1.animationId = none ∧
    (coordRun cs (workerRun s0 msgs).2).1.cube = cs.cube := by
  refine ⟨workerRun_no_renderData msgs s0 rd, rfl, rfl, ?_,
    workerRun_animationId_none msgs WorkerState.fresh rfl, ?_⟩
  · cases ha : s0.animationId with
    | none => simp [workerCleanup, ha]
    | some id => by_cases h0 : id ≠ 0 <;> simp [workerCleanup, ha, h0]
  · rw [coordRun_state_of_no_renderData _ cs
      (fun rd' => workerRun_no_renderData msgs s0 rd')]

/-- The snapshot of the spec's worked example: rotation x = 1, y = 2 for
"cube-1". -/
def snapRot12 : RenderData :=
  { meshId := some "cube-1", rotation := some ⟨some 1, some 2, none⟩ }

/-- A snapshot supplying only the position.x axis. -/
def subsetSnapshot : RenderData := { position := some ⟨some 3, none, none⟩ }

/-- A snapshot whose target identifier names no live object. -/
def ghostSnapshot : RenderData :=
  { meshId := some "ghost", rotation := some ⟨some 1, some 2, none⟩ }

/-- A creation command with the out-of-set geometry kind "torus". -/
def torusCommand : MeshCreateCommand :=
  { id := "torus-1"
    geometry := { type := "torus" }
    material := { type := "basic", color := some 0xff0000 } }

/-- C1, evaluated at the claimed scenario (init on an 800×600 canvas, then
the worker's two messages delivered in FIFO order): `init` succeeds and the
camera holds fov 75, aspect 800/600, near 0.1, far 1000, z = 5, and the
worker does seed one red box-at-origin creation command before
`initComplete` — but the coordinator's message switch has no `createMesh`
case, so delivering the two messages leaves its state untouched and issues
ZERO render calls, and the cube it displays is the locally hardcoded green
(`0x00ff00`) one, not the seeded red (`0xff0000`) box. -/
theorem c1_init_trace_eval :
    (init (CoordState.fresh true) canvas800x600 hostOk).1 = true ∧
    coordAfterInit.camera = some
      { fov := 75, aspect := (800 : ℚ) / 600, near := 1/10, far := 1000
        positionZ := 5 } ∧
    (workerRun WorkerState.fresh [MainToWorkerMsg.init ⟨800, 600⟩]).2 =
      [WorkerOutMsg.createMesh cubeMeshCommand, WorkerOutMsg.initComplete] ∧
    cubeMeshCommand.geometry.type = "box" ∧
    cubeMeshCommand.material.color = some 0xff0000 ∧
    cubeMeshCommand.initialTransform.map InitialTransform.position =
      some (some ⟨0, 0, 0⟩) ∧
    (coordRun coordAfterInit
      (workerRun WorkerState.fresh [MainToWorkerMsg.init ⟨800, 600⟩]).2).2.count
        Effect.render = 0 ∧
    (coordRun coordAfterInit
      (workerRun WorkerState.fresh [MainToWorkerMsg.init ⟨800, 600⟩]).2).1 =
      coordAfterInit ∧
    coordAfterInit.cube = some initialCube ∧
    initialCube.materialColor ≠ 0xff0000 :=
  ⟨rfl, rfl, rfl, rfl, rfl, rfl, rfl, rfl, rfl, by decide⟩

/-- C2 counterexample: the snapshot `subsetSnapshot` supplies exactly one
axis, position.x = 3, yet applying it changes nothing — the cube's
position.x stays 0, refuting "changes exactly the supplied axes". -/
theorem c2_counterexample :
    subsetSnapshot.position = some ⟨some 3, none, none⟩ ∧
    subsetSnapshot.rotation = none ∧
    (updateMainThreadRender coordAfterInit subsetSnapshot).1.cube =
      some initialCube ∧
    initialCube.position.x = some 0 ∧
    some (0 : ℚ) ≠ some (3 : ℚ) := by
  decide

/-- C2 amended: the snapshot handler touches only the cube's rotation.x and
rotation.y.  When a rotation payload is present it copies its x and y
fields verbatim (including an `undefined` for an omitted axis); rotation.z,
position and scale always keep their prior values, and supplied position or
scale axes are never applied; one render call follows. -/
theorem c2_amended (s : CoordState) (cube : CubeState) (data : RenderData)
    (hc : s.cube = some cube) (hr : s.renderer.isNone = false)
    (hs : s.scene = true) (hcam : s.camera.isNone = false) :
    ∃ cube', (updateMainThreadRender s data).1 = { s with cube := some cube' } ∧
      (updateMainThreadRender s data).2 = [Effect.render] ∧
      cube'.position = cube.position ∧
      cube'.scale = cube.scale ∧
      cube'.rotation.z = cube.rotation.z ∧
      (∀ r, data.rotation = some r →
        cube'.rotation.x = r.x ∧ cube'.rotation.y = r.y) ∧
      (data.rotation = none → cube' = cube) := by
  simp only [updateMainThreadRender, hc]
  rw [if_neg (by simp [hr, hs, hcam])]
  cases hrot : data.rotation with
  | none =>
      refine ⟨cube, rfl, rfl, rfl, rfl, rfl, ?_, fun _ => rfl⟩
      intro r hre
      cases hre
  | some r =>
      refine ⟨{ cube with rotation := { cube.rotation with x := r.x, y := r.y } },
        rfl, rfl, rfl, rfl, rfl, ?_, ?_⟩
      · intro r' hre
        cases hre
        exact ⟨rfl, rfl⟩
      · intro hn
        cases hn

/-- C2 witness: the amended statement at the spec's worked example, a
snapshot with rotation x = 1, y = 2 applied to the freshly initialized
coordinator. -/
theorem c2_amended_witness :
    coordAfterInit.cube = some initialCube ∧
    ∃ cube', (updateMainThreadRender coordAfterInit snapRot12).1 =
        { coordAfterInit with cube := some cube' } ∧
      (updateMainThreadRender coordAfterInit snapRot12).2 = [Effect.render] ∧
      cube'.position = initialCube.position ∧
      cube'.scale = initialCube.scale ∧
      cube'.rotation.z = initialCube.rotation.z ∧
      (∀ r, snapRot12.rotation = some r →
        cube'.rotation.x = r.x ∧ cube'.rotation.y = r.y) ∧
      (snapRot12.rotation = none → cube' = initialCube) :=
  ⟨by decide, c2_amended coordAfterInit initialCube snapRot12
    (by decide) (by decide) (by decide) (by decide)⟩

/-- C3 counterexample: a snapshot targeting the unknown identifier "ghost"
is NOT a no-op — it mutates the rotation of the one existing object (the
hardcoded cube), because the handler never reads `meshId`. -/
theorem c3_counterexample :
    coordAfterInit.cube = some initialCube ∧
    (updateMainThreadRender coordAfterInit ghostSnapshot).1.cube =
      some { initialCube with rotation := ⟨some 1, some 2, some 0⟩ } ∧
    ({ initialCube with rotation := ⟨some 1, some 2, some 0⟩ } : CubeState) ≠
      initialCube := by
  decide

/-- C3 amended: the snapshot handler ignores the target identifier entirely
— its result is independent of `meshId` — it never raises an error (the
only possible effect is a render call) and it never creates or destroys an
object (cube presence is preserved); any rotation payload is applied to the
single hardcoded cube whatever the identifier says. -/
theorem c3_amended (s : CoordState) (data : RenderData) (mid : Option String) :
    updateMainThreadRender s { data with meshId := mid } =
      updateMainThreadRender s data ∧
    (updateMainThreadRender s data).1.cube.isSome = s.cube.isSome ∧
    ((updateMainThreadRender s data).2 = [] ∨
      (updateMainThreadRender s data).2 = [Effect.render]) := by
  refine ⟨by cases data; rfl, ?_, ?_⟩
  · cases hc : s.cube with
    | none => simp [updateMainThreadRender, hc]
    | some cube =>
        simp only [updateMainThreadRender, hc]
        by_cases hg : (s.renderer.isNone ∨ s.scene = false ∨ s.camera.isNone)
        · rw [if_pos hg]; simp [hc]
        · rw [if_neg hg]; simp [hc]
  · cases hc : s.cube with
    | none => simp [updateMainThreadRender, hc]
    | some cube =>
        simp only [updateMainThreadRender, hc]
        by_cases hg : (s.renderer.isNone ∨ s.scene = false ∨ s.camera.isNone)
        · rw [if_pos hg]; simp
        · rw [if_neg hg]; simp

/-- C4 counterexample: the coordinator's reaction to the "torus" creation
command is `(state unchanged, no effects at all)` — in particular ZERO
diagnostics are emitted, not the one the claim requires. -/
theorem c4_counterexample :
    torusCommand.geometry.type = "torus" ∧
    onWorkerMessage coordAfterInit (WorkerOutMsg.createMesh torusCommand) =
      (coordAfterInit, []) ∧
    (onWorkerMessage coordAfterInit
      (WorkerOutMsg.createMesh torusCommand)).2.length ≠ 1 :=
  ⟨rfl, rfl, by decide⟩

/-- C4 amended: every `createMesh` message — whatever its geometry or
material kind, in or out of the closed sets — is silently dropped by the
coordinator's message switch (which has no `createMesh` case): no object is
created, no diagnostic is emitted, no crash occurs, and any subsequent
message is processed exactly as if the command had never arrived. -/
theorem c4_amended (s : CoordState) (cmd : MeshCreateCommand)
    (m : WorkerOutMsg) :
    onWorkerMessage s (WorkerOutMsg.createMesh cmd) = (s, []) ∧
    onWorkerMessage (onWorkerMessage s (WorkerOutMsg.createMesh cmd)).1 m =
      onWorkerMessage s m :=
  ⟨rfl, rfl⟩

/-- C5, evaluated on the initialized coordinator: `resize(1000, 500)` only
posts a `resize` message to the worker (whose own resize handler is a pure
no-op) and leaves the coordinator's state — camera aspect still 800/600,
renderer still 800×600 — completely unchanged, although 1000/500 is a
different aspect ratio. -/
theorem c5_resize_eval :
    resize coordAfterInit 1000 500 =
      (coordAfterInit,
        [Effect.postToWorker (MainToWorkerMsg.resize 1000 500)]) ∧
    coordAfterInit.camera.map CameraState.aspect = some ((800 : ℚ) / 600) ∧
    coordAfterInit.renderer.map RendererState.width = some 800 ∧
    coordAfterInit.renderer.map RendererState.height = some 600 ∧
    (800 : ℚ) / 600 ≠ (1000 : ℚ) / 500 ∧
    workerStep WorkerState.fresh (MainToWorkerMsg.resize 1000 500) =
      (WorkerState.fresh, []) :=
  ⟨rfl, rfl, rfl, rfl, by norm_num, rfl⟩

end SvelteThree
